import Mathlib

/-!
# go-otel: exporter selection, provider assembly and the demo span chain

A shallow embedding of `main.go`.  Go values of an interface type that may be
`nil` are modelled with an explicit `nil` constructor (exporters) or with
`Option` (errors).  Calls into the OpenTelemetry SDK are modelled by the data
they are given: an exporter is the record of its configuration, a tracer
provider is the configuration obtained by applying its options.  What a
library does that the source does not show (whether a constructor fails, what
it reads or detects in the environment) is a parameter, `Sdk`.
The process is a function on an explicit state: a clock in nanoseconds, the
globally installed provider and propagator, the spans that ended, the buffer
of the batching processors, the batches handed to exporters and the log of
events.  A schedule, which the program does not control, says how much time
passes at each step and when the background worker of the batching processor
runs.  A deferred call is placed where it runs: last in its function.
-/

namespace GoOtel

/-! ## Exporters -/

/-- The two writers the program hands to the stdout exporter:
`os.Stderr` and `io.Discard`. -/
inductive Writer where
  | Stderr
  | Discard
  deriving DecidableEq

/-- An attribute `key = value` with a string value. -/
structure KeyValue where
  key : String
  value : String
  deriving DecidableEq

/-- The three exporter libraries the program calls. -/
inductive ExporterKind where
  | jaeger
  | gcp
  | stdouttrace
  deriving DecidableEq

/-- A value of the Go interface type `sdktrace.SpanExporter`. An exporter a
library constructor built is recorded with its configuration. -/
inductive SpanExporter where
  /-- the nil interface value -/
  | nil
  /-- a non-nil interface value that holds a nil pointer: what the nil
  `*Exporter` of a failed library constructor becomes when it is returned as
  a `SpanExporter` -/
  | typedNil (kind : ExporterKind)
  /-- the exporter of `jaeger.New(jaeger.WithCollectorEndpoint(...))`: the
  endpoint of the collector, and the settings the library took from the
  environment -/
  | jaeger (endpoint : String) (settings : List KeyValue)
  /-- the exporter of `gcpexporter.New(gcpexporter.WithProjectID(projectID))`:
  the project id, and the settings the library took from the environment -/
  | gcp (projectID : String) (settings : List KeyValue)
  /-- the exporter of `stdouttrace.New(...)`, with `WithPrettyPrint()` given
  or not and the writer of `WithWriter` -/
  | stdouttrace (prettyPrint : Bool) (writer : Writer)
  deriving DecidableEq

/-- A non-nil Go `error`: one made by `fmt.Errorf` in this program, or one
returned by an exporter library constructor. -/
inductive GoError where
  | errorf (msg : String)
  | external (cause : String)
  deriving DecidableEq

/-- The method `Error()` of an error: its message. -/
def GoError.Error : GoError → String
  | .errorf msg => msg
  | .external cause => cause

/-- The process environment. -/
abbrev Environ := String → Option String

/-- `os.Getenv`: the value of the variable, empty when it is not set. -/
def Getenv (env : Environ) (key : String) : String :=
  (env key).getD ""

/-- A resource: schema URL and attribute set. The set is kept as the list
of its attributes in the order of their keys, one attribute a key. -/
structure Resource where
  schemaURL : String
  attributes : List KeyValue
  deriving DecidableEq

/-- The behaviour of the libraries that the source of the program does not
show, taken as a parameter. -/
structure Sdk where
  /-- the settings `jaeger.New(jaeger.WithCollectorEndpoint(...))` takes from
  the environment, among them the username and the password of the collector
  (`OTEL_EXPORTER_JAEGER_USER`, `OTEL_EXPORTER_JAEGER_PASSWORD`) -/
  jaegerReads : Environ → List KeyValue
  /-- the cause of the failure of `jaeger.New`, if it fails, for the
  endpoint it is given and the settings it read -/
  jaegerFailure : String → List KeyValue → Option String
  /-- the settings `gcpexporter.New` takes from the environment, among them
  where its credentials are -/
  gcpReads : Environ → List KeyValue
  /-- the cause of the failure of `gcpexporter.New`, if it fails, for the
  project id it is given and the settings it read -/
  gcpFailure : String → List KeyValue → Option String
  /-- the cause of the failure of `stdouttrace.New`, if it fails -/
  stdoutFailure : Bool → Writer → Option String
  /-- the attributes `resource.Environment()` detects in the environment
  (the variables `OTEL_RESOURCE_ATTRIBUTES` and `OTEL_SERVICE_NAME`) -/
  detect : Environ → List KeyValue
  /-- the resource `resource.Default()` -/
  defaultResource : Environ → Resource

/-- The pair `(exporter, error)` a library constructor of the given kind
returns, seen as `(SpanExporter, error)`: the exporter and a nil error, or a
nil pointer and the error. -/
def constructed (kind : ExporterKind) (x : SpanExporter) (failure : Option String) :
    SpanExporter × Option GoError :=
  match failure with
  | none => (x, none)
  | some cause => (.typedNil kind, some (.external cause))

/-- `jaeger.New(jaeger.WithCollectorEndpoint(jaeger.WithEndpoint(endpoint)))`:
the endpoint is the one given, whatever the environment says, and the other
settings are read from the environment. -/
def jaeger.New (lib : Sdk) (env : Environ) (endpoint : String) :
    SpanExporter × Option GoError :=
  constructed .jaeger (.jaeger endpoint (lib.jaegerReads env))
    (lib.jaegerFailure endpoint (lib.jaegerReads env))

/-- `gcpexporter.New(gcpexporter.WithProjectID(projectID))`. -/
def gcpexporter.New (lib : Sdk) (env : Environ) (projectID : String) :
    SpanExporter × Option GoError :=
  constructed .gcp (.gcp projectID (lib.gcpReads env))
    (lib.gcpFailure projectID (lib.gcpReads env))

/-- `stdouttrace.New(...)` with the two options the program gives. -/
def stdouttrace.New (lib : Sdk) (prettyPrint : Bool) (writer : Writer) :
    SpanExporter × Option GoError :=
  constructed .stdouttrace (.stdouttrace prettyPrint writer)
    (lib.stdoutFailure prettyPrint writer)

/-- `initTracerExporter` of `main.go`: the switch on the exporter type. -/
def initTracerExporter (lib : Sdk) (env : Environ)
    (exporterType jaegerEndPoint : String) : SpanExporter × Option GoError :=
  match exporterType with
  | "jaeger" => jaeger.New lib env jaegerEndPoint
  | "gcp" =>
    let projectID := Getenv env "GOOGLE_CLOUD_PROJECT"
    gcpexporter.New lib env projectID
  | "stdout" => stdouttrace.New lib true .Stderr
  | "none" => stdouttrace.New lib true .Discard
  | _ => (.nil, some (.errorf ("unsupported exporter: " ++ exporterType)))

/-! ## Tracer provider -/

/-- The constant `semconv.SchemaURL` of semconv v1.7.0. -/
def semconv.SchemaURL : String := "https://opentelemetry.io/schemas/1.7.0"

/-- The constant `semconv.ServiceNameKey`. -/
def semconv.ServiceNameKey : String := "service.name"

/-- The method `Key.String`: the attribute `k = v`. -/
def Key.String (k v : String) : KeyValue := ⟨k, v⟩

/-- One attribute added to an attribute set: it takes the place of the
attribute of the same key, if there is one, and else its place in the order
of the keys. -/
def insertAttr (kv : KeyValue) : List KeyValue → List KeyValue
  | [] => [kv]
  | x :: xs =>
    if kv.key = x.key then kv :: xs
    else if kv.key < x.key then kv :: x :: xs
    else x :: insertAttr kv xs

/-- `attribute.NewSet`: the attributes in the order of their keys; of two
attributes with one key the later is kept. -/
def attribute.NewSet (kvs : List KeyValue) : List KeyValue :=
  kvs.foldl (fun set kv => insertAttr kv set) []

/-- `resource.NewWithAttributes`. -/
def resource.NewWithAttributes (schemaURL : String) (attrs : List KeyValue) : Resource :=
  ⟨schemaURL, attribute.NewSet attrs⟩

/-- `resource.NewSchemaless`. -/
def resource.NewSchemaless (attrs : List KeyValue) : Resource :=
  ⟨"", attribute.NewSet attrs⟩

/-- `resource.Empty`. -/
def resource.Empty : Resource := ⟨"", []⟩

/-- `resource.Environment()`: the schemaless resource of the attributes
detected in the environment. -/
def resource.Environment (lib : Sdk) (env : Environ) : Resource :=
  resource.NewSchemaless (lib.detect env)

/-- `resource.Merge(a, b)`: the attributes of both, those of `b` taking the
place of those of `a` with the same key; the schema URL of the one that has
one, and the empty resource when the two have different schema URLs. -/
def resource.Merge (a b : Resource) : Resource :=
  if a.schemaURL = "" then ⟨b.schemaURL, attribute.NewSet (a.attributes ++ b.attributes)⟩
  else if b.schemaURL = "" then ⟨a.schemaURL, attribute.NewSet (a.attributes ++ b.attributes)⟩
  else if a.schemaURL = b.schemaURL then
    ⟨a.schemaURL, attribute.NewSet (a.attributes ++ b.attributes)⟩
  else resource.Empty

/-- Samplers of the SDK. -/
inductive Sampler where
  | AlwaysSample
  | NeverSample
  | ParentBased (root : Sampler)
  deriving DecidableEq

/-- Span processors of the SDK: batching or synchronous (simple), each
wrapping an exporter. -/
inductive SpanProcessor where
  | batch (exporter : SpanExporter)
  | simple (exporter : SpanExporter)
  deriving DecidableEq

/-- A tracer provider, as configured by its options. -/
structure TracerProvider where
  spanProcessors : List SpanProcessor
  sampler : Sampler
  resource : Resource
  deriving DecidableEq

/-- The options of `sdktrace.NewTracerProvider`. -/
inductive TracerProviderOption where
  | WithBatcher (exporter : SpanExporter)
  | WithSyncer (exporter : SpanExporter)
  | WithSampler (s : Sampler)
  | WithResource (r : Resource)
  deriving DecidableEq

/-- The effect of one option on the configuration. `WithResource(r)` stores
`resource.Merge(resource.Environment(), r)`. -/
def TracerProviderOption.apply (lib : Sdk) (env : Environ) (cfg : TracerProvider) :
    TracerProviderOption → TracerProvider
  | .WithBatcher e => { cfg with spanProcessors := cfg.spanProcessors ++ [.batch e] }
  | .WithSyncer e => { cfg with spanProcessors := cfg.spanProcessors ++ [.simple e] }
  | .WithSampler s => { cfg with sampler := s }
  | .WithResource r => { cfg with resource := resource.Merge (resource.Environment lib env) r }

/-- `sdktrace.NewTracerProvider`: the options applied in order; what no
option sets is the default (parent-based always-sample, default resource, no
processor). -/
def NewTracerProvider (lib : Sdk) (env : Environ) (opts : List TracerProviderOption) :
    TracerProvider :=
  opts.foldl (TracerProviderOption.apply lib env)
    { spanProcessors := [], sampler := .ParentBased .AlwaysSample,
      resource := lib.defaultResource env }

/-- `initTracerProvider` of `main.go`. -/
def initTracerProvider (lib : Sdk) (env : Environ) (exporter : SpanExporter)
    (serviceName : String) : TracerProvider × Option GoError :=
  let tp := NewTracerProvider lib env [
    .WithBatcher exporter,
    .WithSampler .AlwaysSample,
    .WithResource (resource.NewWithAttributes semconv.SchemaURL
      [Key.String semconv.ServiceNameKey serviceName])]
  (tp, none)

/-! ## Spans, contexts and the tracer -/

/-- The constant `time.Millisecond`, in nanoseconds. -/
def Millisecond : Nat := 1000000

/-- The identity of a span as a context carries it. -/
structure SpanContext where
  traceID : Nat
  spanID : Nat
  sampled : Bool
  deriving DecidableEq

/-- A `context.Context`: the span it carries, if any. -/
structure Context where
  span : Option SpanContext
  deriving DecidableEq

/-- `context.Background()`: a context that carries no span. -/
def Background : Context := ⟨none⟩

/-- A span that has ended. Times are in nanoseconds. -/
structure Span where
  name : String
  traceID : Nat
  spanID : Nat
  parentSpanID : Option Nat
  startTime : Nat
  endTime : Nat
  deriving DecidableEq

/-- The duration of an ended span. -/
def Span.duration (s : Span) : Nat := s.endTime - s.startTime

/-- The handle `tracer.Start` returns: a started span, with the provider
that was installed when it started. -/
structure LiveSpan where
  name : String
  traceID : Nat
  spanID : Nat
  parentSpanID : Option Nat
  startTime : Nat
  sampled : Bool
  provider : Option TracerProvider
  deriving DecidableEq

/-- Text map propagators. -/
inductive Propagator where
  | TraceContext
  | Baggage
  | Composite (ps : List Propagator)

/-- What the program does that can be observed, in order. -/
inductive Event where
  | SetTracerProvider (tp : TracerProvider)
  | SetTextMapPropagator
  | Start (name : String) (spanID : Nat)
  | End (name : String) (spanID : Nat)
  | ForceFlush
  | Fatal (msg : String)
  deriving DecidableEq

/-- What the program does not control: the time that passes at each step
beyond the pauses it asks for, and the steps at which the background worker
of the batching processors exports what is queued. -/
structure Sched where
  latency : Nat → Nat
  worker : Nat → Bool

/-- The state of the process. -/
structure State where
  sched : Sched
  step : Nat
  /-- the clock, in nanoseconds -/
  clock : Nat
  nextTraceID : Nat
  nextSpanID : Nat
  /-- the global tracer provider, once installed -/
  provider : Option TracerProvider
  /-- the global propagator, once installed -/
  propagator : Option Propagator
  /-- the spans that have ended, in the order they ended -/
  ended : List Span
  /-- the spans buffered by batching processors, each with the exporter of
  its processor -/
  queue : List (SpanExporter × Span)
  /-- the calls of an exporter's export, each with the batch it was handed -/
  exported : List (SpanExporter × List Span)
  events : List Event
  /-- the exit status, once the process has exited -/
  exitCode : Option Nat

/-- The state of a process that starts at time `now`. -/
def State.init (sched : Sched) (now : Nat) : State :=
  { sched := sched, step := 0, clock := now, nextTraceID := 1, nextSpanID := 1,
    provider := none, propagator := none, ended := [], queue := [], exported := [],
    events := [], exitCode := none }

/-- A batching processor hands what it has buffered for its exporter to
that exporter, in one batch; nothing is exported when nothing is buffered. -/
def exportBatch (e : SpanExporter) (st : State) : State :=
  let batch := (st.queue.filter (fun q => q.1 = e)).map (fun q => q.2)
  if batch.isEmpty then st
  else { st with queue := st.queue.filter (fun q => ¬ q.1 = e),
                 exported := st.exported ++ [(e, batch)] }

/-- Every batching processor of the list exports what it has buffered. -/
def exportQueued : List SpanProcessor → State → State
  | [], st => st
  | .batch e :: ps, st => exportQueued ps (exportBatch e st)
  | .simple _ :: ps, st => exportQueued ps st

/-- The span processors of the installed provider. -/
def State.processors (st : State) : List SpanProcessor :=
  match st.provider with
  | some tp => tp.spanProcessors
  | none => []

/-- One step of the world: time passes, and the background worker of the
installed provider may export. -/
def tick (st : State) : State :=
  let st1 := { st with clock := st.clock + st.sched.latency st.step, step := st.step + 1 }
  if st.sched.worker st.step then exportQueued st1.processors st1 else st1

/-- The decision of a sampler for a span whose parent is `parent`. -/
def shouldSample : Sampler → Option SpanContext → Bool
  | .AlwaysSample, _ => true
  | .NeverSample, _ => false
  | .ParentBased root, none => shouldSample root none
  | .ParentBased _, some p => p.sampled

/-- `tracer.Start`: the parent of the new span is the span the context
carries, whose trace it joins; without one the span is the root of a new
trace. The context returned carries the new span. -/
def tracer.Start (ctx : Context) (name : String) (st : State) : (Context × LiveSpan) × State :=
  let traceID := match ctx.span with
    | some p => p.traceID
    | none => st.nextTraceID
  let sampled := match st.provider with
    | some tp => shouldSample tp.sampler ctx.span
    | none => false
  let span : LiveSpan :=
    { name := name, traceID := traceID, spanID := st.nextSpanID,
      parentSpanID := ctx.span.map (fun p => p.spanID), startTime := st.clock,
      sampled := sampled, provider := st.provider }
  let st1 := { st with
    nextTraceID := match ctx.span with
      | some _ => st.nextTraceID
      | none => st.nextTraceID + 1,
    nextSpanID := st.nextSpanID + 1,
    events := st.events ++ [.Start name st.nextSpanID] }
  ((⟨some ⟨traceID, st.nextSpanID, sampled⟩⟩, span), tick st1)

/-- The processors of a provider receive an ended span: a batching one
buffers it, a simple one exports it at once. -/
def onEnd (s : Span) : List SpanProcessor → State → State
  | [], st => st
  | .batch e :: ps, st => onEnd s ps { st with queue := st.queue ++ [(e, s)] }
  | .simple e :: ps, st => onEnd s ps { st with exported := st.exported ++ [(e, [s])] }

/-- The ended span a live span becomes at time `now`. -/
def LiveSpan.finish (span : LiveSpan) (now : Nat) : Span :=
  { name := span.name, traceID := span.traceID, spanID := span.spanID,
    parentSpanID := span.parentSpanID, startTime := span.startTime, endTime := now }

/-- The processors an ended span is handed to: those of its provider when
the span is sampled. -/
def LiveSpan.processors (span : LiveSpan) : List SpanProcessor :=
  match span.provider with
  | some tp => if span.sampled then tp.spanProcessors else []
  | none => []

/-- `span.End`, called once on a live span: the end time is stamped and the
span, when sampled, is handed to the processors of its provider. -/
def LiveSpan.End (span : LiveSpan) (st : State) : State :=
  let s := span.finish st.clock
  let st1 := { st with ended := st.ended ++ [s],
                       events := st.events ++ [.End span.name span.spanID] }
  tick (onEnd s span.processors st1)

/-- `time.Sleep`: the pause, and then whatever time the world takes. -/
def time.Sleep (d : Nat) (st : State) : State :=
  tick { st with clock := st.clock + d }

/-- `c` of `main.go`; the deferred `span.End()` runs last. -/
def c (ctx : Context) (st : State) : State :=
  let ((_, span), st) := tracer.Start ctx "c" st
  let st := time.Sleep (300 * Millisecond) st
  span.End st

/-- `b` of `main.go`; the deferred `span.End()` runs after `c` returns. -/
def b (ctx : Context) (st : State) : State :=
  let ((ctx, span), st) := tracer.Start ctx "b" st
  let st := time.Sleep (200 * Millisecond) st
  let st := c ctx st
  span.End st

/-- `a` of `main.go`; the deferred `span.End()` runs after `b` returns. -/
def a (ctx : Context) (st : State) : State :=
  let ((ctx, span), st) := tracer.Start ctx "a" st
  let st := time.Sleep (100 * Millisecond) st
  let st := b ctx st
  span.End st

/-! ## The process -/

/-- `otel.SetTracerProvider`. -/
def otel.SetTracerProvider (tp : TracerProvider) (st : State) : State :=
  { st with provider := some tp, events := st.events ++ [.SetTracerProvider tp] }

/-- `otel.SetTextMapPropagator`. -/
def otel.SetTextMapPropagator (p : Propagator) (st : State) : State :=
  { st with propagator := some p, events := st.events ++ [.SetTextMapPropagator] }

/-- `tp.ForceFlush`: every batching processor of the provider exports what
it has buffered. -/
def TracerProvider.ForceFlush (tp : TracerProvider) (_ctx : Context) (st : State) : State :=
  exportQueued tp.spanProcessors { st with events := st.events ++ [.ForceFlush] }

/-- `log.Fatal`: the error is logged and the process exits with status 1;
nothing deferred runs. -/
def log.Fatal (err : GoError) (st : State) : State :=
  { st with events := st.events ++ [.Fatal err.Error], exitCode := some 1 }

/-- The body of `main`, with the two literals it starts from as parameters.
The deferred `tp.ForceFlush(ctx)` is registered by the last statement and
runs when the body returns, after which the process exits with status 0. -/
def mainBody (lib : Sdk) (env : Environ) (exporterType jaegerEndpoint : String)
    (st : State) : State :=
  let ctx := Background
  let (exp, err) := initTracerExporter lib env exporterType jaegerEndpoint
  match err with
  | some e => log.Fatal e st
  | none =>
    let (tp, err) := initTracerProvider lib env exp "go-otel"
    let st := otel.SetTracerProvider tp st
    match err with
    | some e => log.Fatal e st
    | none =>
      let st := otel.SetTextMapPropagator (.Composite [.TraceContext, .Baggage]) st
      let st := a ctx st
      let st := tp.ForceFlush ctx st
      { st with exitCode := some 0 }

/-- `main` of `main.go`, in a process that starts at time `now`. -/
def main (lib : Sdk) (env : Environ) (sched : Sched) (now : Nat) : State :=
  mainBody lib env "jaeger" "http://localhost:14268/api/traces" (State.init sched now)

/-! ## Predicates used in the statements -/

/-- The identifiers with a case of their own in the switch. -/
def recognised : List String := ["jaeger", "gcp", "stdout", "none"]

/-- The recognised options as the specification names them. -/
def specRecognised : List String := ["jaeger", "cloud", "stdout", "discard"]

/-- The environment in which no variable is set. -/
def envEmpty : Environ := fun _ => none

/-- The environment in which one variable is set. -/
def envOf (name value : String) : Environ :=
  fun key => if key = name then some value else none

/-- The pieces of a list of characters between the occurrences of `sep`. -/
def splitChars (sep : Char) : List Char → List (List Char)
  | [] => [[]]
  | x :: xs =>
    if x = sep then [] :: splitChars sep xs
    else match splitChars sep xs with
      | [] => [[x]]
      | y :: ys => (x :: y) :: ys

/-- The attribute a `key=value` pair stands for; none without an `=`. -/
def cutPair (pair : List Char) : Option KeyValue :=
  match pair.span (fun ch => ch != '=') with
  | (_, []) => none
  | (k, _ :: v) => some ⟨String.mk k, String.mk v⟩

/-- A detector for examples: `OTEL_RESOURCE_ATTRIBUTES` read as
comma-separated `key=value` pairs, taken as they are written. -/
def detectPlain (env : Environ) : List KeyValue :=
  if Getenv env "OTEL_RESOURCE_ATTRIBUTES" = "" then []
  else (splitChars ',' (Getenv env "OTEL_RESOURCE_ATTRIBUTES").data).filterMap cutPair

/-- Libraries for examples: every constructor succeeds, the jaeger library
reads the username and the password of the collector, the cloud library the
place of its credentials, and the resource attributes are detected by
`detectPlain`. -/
def Sdk.ok : Sdk :=
  { jaegerReads := fun env =>
      [⟨"OTEL_EXPORTER_JAEGER_USER", Getenv env "OTEL_EXPORTER_JAEGER_USER"⟩,
       ⟨"OTEL_EXPORTER_JAEGER_PASSWORD", Getenv env "OTEL_EXPORTER_JAEGER_PASSWORD"⟩],
    jaegerFailure := fun _ _ => none,
    gcpReads := fun env =>
      [⟨"GOOGLE_APPLICATION_CREDENTIALS", Getenv env "GOOGLE_APPLICATION_CREDENTIALS"⟩],
    gcpFailure := fun _ _ => none,
    stdoutFailure := fun _ _ => none, detect := detectPlain,
    defaultResource := fun _ => resource.Empty }

/-- The attributes are in the strict order of their keys. -/
def KeySorted (l : List KeyValue) : Prop :=
  l.Pairwise (fun x y => x.key < y.key)

/-- A schedule for examples: some time passes at every step and the
background worker runs at one of them. -/
def sched0 : Sched := ⟨fun n => n, fun n => n == 3⟩

/-- The trace a span started from `ctx` belongs to. -/
def traceOf (ctx : Context) (st : State) : Nat :=
  match ctx.span with
  | some p => p.traceID
  | none => st.nextTraceID

/-- The exporter `x` has been handed the span `s` in some batch. -/
def handed (x : SpanExporter) (s : Span) (st : State) : Prop :=
  ∃ batch, (x, batch) ∈ st.exported ∧ s ∈ batch

/-- The span `s` has been handed to `x` or waits in the buffer of the
batching processor that wraps `x`. -/
def tracked (x : SpanExporter) (s : Span) (st : State) : Prop :=
  handed x s st ∨ (x, s) ∈ st.queue

/-- The installed provider samples every span and has one processor, a
batching one that wraps `x`. -/
def Installed (x : SpanExporter) (st : State) : Prop :=
  ∃ tp, st.provider = some tp ∧ tp.sampler = Sampler.AlwaysSample ∧
    tp.spanProcessors = [SpanProcessor.batch x]

/-- Every span that has ended is with the exporter `x` or in the buffer. -/
def AllTracked (x : SpanExporter) (st : State) : Prop :=
  ∀ s ∈ st.ended, tracked x s st

/-! ## Exporter selection: the default case -/

theorem initTracerExporter_default (lib : Sdk) (env : Environ) (s e : String)
    (h : s ∉ recognised) :
    initTracerExporter lib env s e = (.nil, some (.errorf ("unsupported exporter: " ++ s))) := by
  simp only [recognised, List.mem_cons, List.mem_singleton, not_or, List.not_mem_nil,
    or_false] at h
  obtain ⟨h1, h2, h3, h4⟩ := h
  unfold initTracerExporter
  split <;> simp_all

theorem constructed_error_ne (kind : ExporterKind) (x : SpanExporter) (f : Option String)
    (msg : String) : (constructed kind x f).2 ≠ some (GoError.errorf msg) := by
  unfold constructed
  split <;> simp

theorem constructed_ok (kind : ExporterKind) (x : SpanExporter) (f : Option String)
    (h : (constructed kind x f).2 = none) : constructed kind x f = (x, none) := by
  unfold constructed at *
  split at h
  · rfl
  · simp at h

/-! ## Attribute sets -/

theorem mem_insertAttr_self (kv : KeyValue) (l : List KeyValue) : kv ∈ insertAttr kv l := by
  induction l with
  | nil => simp [insertAttr]
  | cons x xs ih =>
    unfold insertAttr
    split
    · simp
    · split
      · simp
      · exact List.mem_cons_of_mem _ ih

theorem mem_of_mem_insertAttr {kv y : KeyValue} {l : List KeyValue}
    (h : y ∈ insertAttr kv l) : y = kv ∨ y ∈ l := by
  induction l with
  | nil => simpa [insertAttr] using h
  | cons x xs ih =>
    unfold insertAttr at h
    split at h
    · rcases List.mem_cons.mp h with h1 | h1
      · exact Or.inl h1
      · exact Or.inr (List.mem_cons_of_mem _ h1)
    · split at h
      · rcases List.mem_cons.mp h with h1 | h1
        · exact Or.inl h1
        · exact Or.inr h1
      · rcases List.mem_cons.mp h with h1 | h1
        · exact Or.inr (h1 ▸ List.mem_cons_self _ _)
        · rcases ih h1 with h2 | h2
          · exact Or.inl h2
          · exact Or.inr (List.mem_cons_of_mem _ h2)

theorem insertAttr_sorted (kv : KeyValue) {l : List KeyValue} (hl : KeySorted l) :
    KeySorted (insertAttr kv l) := by
  induction l with
  | nil => simp [insertAttr, KeySorted]
  | cons x xs ih =>
    unfold KeySorted at hl
    obtain ⟨hx, hxs⟩ := List.pairwise_cons.mp hl
    unfold insertAttr
    split
    · rename_i heq
      exact List.pairwise_cons.mpr ⟨fun y hy => heq ▸ hx y hy, hxs⟩
    · split
      · rename_i hne hlt
        refine List.pairwise_cons.mpr ⟨fun y hy => ?_, hl⟩
        rcases List.mem_cons.mp hy with h1 | h1
        · exact h1 ▸ hlt
        · exact lt_trans hlt (hx y h1)
      · rename_i hne hlt
        refine List.pairwise_cons.mpr ⟨fun y hy => ?_, ih hxs⟩
        rcases mem_of_mem_insertAttr hy with h1 | h1
        · rw [h1]
          rcases lt_trichotomy kv.key x.key with h2 | h2 | h2
          · exact absurd h2 hlt
          · exact absurd h2 hne
          · exact h2
        · exact hx y h1

theorem insertAttr_key {kv y : KeyValue} {l : List KeyValue} (hl : KeySorted l)
    (h : y ∈ insertAttr kv l) (hk : y.key = kv.key) : y = kv := by
  induction l with
  | nil => simpa [insertAttr] using h
  | cons x xs ih =>
    unfold KeySorted at hl
    obtain ⟨hx, hxs⟩ := List.pairwise_cons.mp hl
    unfold insertAttr at h
    split at h
    · rename_i heq
      rcases List.mem_cons.mp h with h1 | h1
      · exact h1
      · have := hx y h1
        rw [hk, heq] at this
        exact absurd this (lt_irrefl _)
    · split at h
      · rename_i hne hlt
        rcases List.mem_cons.mp h with h1 | h1
        · exact h1
        · rcases List.mem_cons.mp h1 with h2 | h2
          · exact absurd (h2 ▸ hk).symm hne
          · have := hx y h2
            rw [hk] at this
            exact absurd (lt_trans this hlt) (lt_irrefl _)
      · rename_i hne hlt
        rcases List.mem_cons.mp h with h1 | h1
        · exact absurd (h1 ▸ hk).symm hne
        · exact ih hxs h1

theorem foldl_insertAttr_sorted (l acc : List KeyValue) (h : KeySorted acc) :
    KeySorted (l.foldl (fun set kv => insertAttr kv set) acc) := by
  induction l generalizing acc with
  | nil => exact h
  | cons x xs ih => exact ih _ (insertAttr_sorted x h)

theorem mem_foldl_insertAttr {y : KeyValue} (l acc : List KeyValue)
    (h : y ∈ l.foldl (fun set kv => insertAttr kv set) acc) : y ∈ acc ∨ y ∈ l := by
  induction l generalizing acc with
  | nil => exact Or.inl h
  | cons x xs ih =>
    rcases ih _ h with h1 | h1
    · rcases mem_of_mem_insertAttr h1 with h2 | h2
      · exact Or.inr (h2 ▸ List.mem_cons_self _ _)
      · exact Or.inl h2
    · exact Or.inr (List.mem_cons_of_mem _ h1)

theorem NewSet_sorted (l : List KeyValue) : KeySorted (attribute.NewSet l) :=
  foldl_insertAttr_sorted l [] List.Pairwise.nil

theorem mem_NewSet {y : KeyValue} {l : List KeyValue} (h : y ∈ attribute.NewSet l) : y ∈ l := by
  rcases mem_foldl_insertAttr l [] h with h1 | h1
  · exact absurd h1 (List.not_mem_nil _)
  · exact h1

theorem NewSet_append_singleton (l : List KeyValue) (kv : KeyValue) :
    attribute.NewSet (l ++ [kv]) = insertAttr kv (attribute.NewSet l) := by
  simp [attribute.NewSet, List.foldl_append]

/-- The resource `initTracerProvider` configures: the service name added to
the set of the attributes detected in the environment. -/
theorem initTracerProvider_resource (lib : Sdk) (env : Environ) (x : SpanExporter)
    (n : String) :
    (initTracerProvider lib env x n).1.resource =
      ⟨semconv.SchemaURL,
        insertAttr ⟨"service.name", n⟩
          (attribute.NewSet (attribute.NewSet (lib.detect env)))⟩ := by
  show resource.Merge (resource.Environment lib env)
      (resource.NewWithAttributes semconv.SchemaURL
        [Key.String semconv.ServiceNameKey n]) = _
  have h1 : resource.NewWithAttributes semconv.SchemaURL
      [Key.String semconv.ServiceNameKey n] = ⟨semconv.SchemaURL, [⟨"service.name", n⟩]⟩ := rfl
  rw [h1]
  unfold resource.Merge resource.Environment resource.NewSchemaless
  simp only [if_true]
  rw [NewSet_append_singleton]

/-! ## Frame lemmas: what each step leaves alone -/

theorem exportBatch_frame (e : SpanExporter) (st : State) :
    ∃ q x, exportBatch e st = { st with queue := q, exported := x } := by
  unfold exportBatch
  dsimp only
  split
  · exact ⟨st.queue, st.exported, rfl⟩
  · exact ⟨_, _, rfl⟩

theorem exportQueued_frame (ps : List SpanProcessor) (st : State) :
    ∃ q x, exportQueued ps st = { st with queue := q, exported := x } := by
  induction ps generalizing st with
  | nil => exact ⟨st.queue, st.exported, rfl⟩
  | cons p ps ih =>
    cases p with
    | batch e =>
      obtain ⟨q1, x1, h1⟩ := exportBatch_frame e st
      obtain ⟨q2, x2, h2⟩ := ih (exportBatch e st)
      refine ⟨q2, x2, ?_⟩
      rw [exportQueued, h2, h1]
    | simple e => exact ih st

theorem onEnd_frame (s : Span) (ps : List SpanProcessor) (st : State) :
    ∃ q x, onEnd s ps st = { st with queue := q, exported := x } := by
  induction ps generalizing st with
  | nil => exact ⟨st.queue, st.exported, rfl⟩
  | cons p ps ih =>
    cases p with
    | batch e =>
      obtain ⟨q2, x2, h2⟩ := ih { st with queue := st.queue ++ [(e, s)] }
      exact ⟨q2, x2, by rw [onEnd, h2]⟩
    | simple e =>
      obtain ⟨q2, x2, h2⟩ := ih { st with exported := st.exported ++ [(e, [s])] }
      exact ⟨q2, x2, by rw [onEnd, h2]⟩

theorem tick_frame (st : State) :
    ∃ q x, tick st = { st with clock := st.clock + st.sched.latency st.step,
                               step := st.step + 1, queue := q, exported := x } := by
  unfold tick
  split
  · obtain ⟨q, x, h⟩ := exportQueued_frame
      (State.processors { st with clock := st.clock + st.sched.latency st.step,
                                  step := st.step + 1 })
      { st with clock := st.clock + st.sched.latency st.step, step := st.step + 1 }
    exact ⟨q, x, by rw [h]⟩
  · exact ⟨st.queue, st.exported, rfl⟩

@[simp]
theorem tick_ended (st : State) : (tick st).ended = st.ended := by
  obtain ⟨q, x, h⟩ := tick_frame st; rw [h]
@[simp]
theorem tick_events (st : State) : (tick st).events = st.events := by
  obtain ⟨q, x, h⟩ := tick_frame st; rw [h]
@[simp]
theorem tick_clock (st : State) :
    (tick st).clock = st.clock + st.sched.latency st.step := by
  obtain ⟨q, x, h⟩ := tick_frame st; rw [h]
@[simp]
theorem tick_step (st : State) : (tick st).step = st.step + 1 := by
  obtain ⟨q, x, h⟩ := tick_frame st; rw [h]
@[simp]
theorem tick_sched (st : State) : (tick st).sched = st.sched := by
  obtain ⟨q, x, h⟩ := tick_frame st; rw [h]
@[simp]
theorem tick_nextSpanID (st : State) : (tick st).nextSpanID = st.nextSpanID := by
  obtain ⟨q, x, h⟩ := tick_frame st; rw [h]
@[simp]
theorem tick_nextTraceID (st : State) : (tick st).nextTraceID = st.nextTraceID := by
  obtain ⟨q, x, h⟩ := tick_frame st; rw [h]
@[simp]
theorem tick_provider (st : State) : (tick st).provider = st.provider := by
  obtain ⟨q, x, h⟩ := tick_frame st; rw [h]
@[simp]
theorem tick_propagator (st : State) : (tick st).propagator = st.propagator := by
  obtain ⟨q, x, h⟩ := tick_frame st; rw [h]
@[simp]
theorem tick_exitCode (st : State) : (tick st).exitCode = st.exitCode := by
  obtain ⟨q, x, h⟩ := tick_frame st; rw [h]

@[simp]
theorem onEnd_ended (s : Span) (ps : List SpanProcessor) (st : State) :
    (onEnd s ps st).ended = st.ended := by
  obtain ⟨q, x, h⟩ := onEnd_frame s ps st; rw [h]
@[simp]
theorem onEnd_events (s : Span) (ps : List SpanProcessor) (st : State) :
    (onEnd s ps st).events = st.events := by
  obtain ⟨q, x, h⟩ := onEnd_frame s ps st; rw [h]
@[simp]
theorem onEnd_clock (s : Span) (ps : List SpanProcessor) (st : State) :
    (onEnd s ps st).clock = st.clock := by
  obtain ⟨q, x, h⟩ := onEnd_frame s ps st; rw [h]
@[simp]
theorem onEnd_step (s : Span) (ps : List SpanProcessor) (st : State) :
    (onEnd s ps st).step = st.step := by
  obtain ⟨q, x, h⟩ := onEnd_frame s ps st; rw [h]
@[simp]
theorem onEnd_sched (s : Span) (ps : List SpanProcessor) (st : State) :
    (onEnd s ps st).sched = st.sched := by
  obtain ⟨q, x, h⟩ := onEnd_frame s ps st; rw [h]
@[simp]
theorem onEnd_nextSpanID (s : Span) (ps : List SpanProcessor) (st : State) :
    (onEnd s ps st).nextSpanID = st.nextSpanID := by
  obtain ⟨q, x, h⟩ := onEnd_frame s ps st; rw [h]
@[simp]
theorem onEnd_nextTraceID (s : Span) (ps : List SpanProcessor) (st : State) :
    (onEnd s ps st).nextTraceID = st.nextTraceID := by
  obtain ⟨q, x, h⟩ := onEnd_frame s ps st; rw [h]
@[simp]
theorem onEnd_provider (s : Span) (ps : List SpanProcessor) (st : State) :
    (onEnd s ps st).provider = st.provider := by
  obtain ⟨q, x, h⟩ := onEnd_frame s ps st; rw [h]
@[simp]
theorem onEnd_propagator (s : Span) (ps : List SpanProcessor) (st : State) :
    (onEnd s ps st).propagator = st.propagator := by
  obtain ⟨q, x, h⟩ := onEnd_frame s ps st; rw [h]
@[simp]
theorem onEnd_exitCode (s : Span) (ps : List SpanProcessor) (st : State) :
    (onEnd s ps st).exitCode = st.exitCode := by
  obtain ⟨q, x, h⟩ := onEnd_frame s ps st; rw [h]

/-! ## Exporter selection -/

/-- C1, as the claim states it, fails: `"gcp"` and `"none"` are not among
the options the specification recognises, and `initTracerExporter` does not
reject them: it returns an exporter and a nil error. -/
theorem gcp_none_not_rejected :
    "gcp" ∉ specRecognised ∧ "none" ∉ specRecognised ∧
    (initTracerExporter Sdk.ok envEmpty "gcp" "http://h/").1 ≠ SpanExporter.nil ∧
    (initTracerExporter Sdk.ok envEmpty "gcp" "http://h/").2 = none ∧
    (initTracerExporter Sdk.ok envEmpty "none" "http://h/").1 ≠ SpanExporter.nil ∧
    (initTracerExporter Sdk.ok envEmpty "none" "http://h/").2 = none := by
  decide

/-- C1, amended. For every identifier `s` that is not one of the case labels
of the switch (`"jaeger"`, `"gcp"`, `"stdout"`, `"none"`) and every endpoint
`e`, `initTracerExporter` returns the nil exporter together with a non-nil
error, and the message of that error is `"unsupported exporter: "` followed
by `s` verbatim. -/
theorem initTracerExporter_unsupported (lib : Sdk) (env : Environ) (s e : String)
    (h : s ∉ recognised) :
    (initTracerExporter lib env s e).1 = SpanExporter.nil ∧
    ∃ err, (initTracerExporter lib env s e).2 = some err ∧
      err = GoError.errorf ("unsupported exporter: " ++ s) ∧
      err.Error = "unsupported exporter: " ++ s := by
  rw [initTracerExporter_default lib env s e h]
  exact ⟨rfl, _, rfl, rfl, rfl⟩

theorem initTracerExporter_unsupported_witness :
    (initTracerExporter Sdk.ok envEmpty "zipkin" "http://h/").1 = SpanExporter.nil ∧
    ∃ err, (initTracerExporter Sdk.ok envEmpty "zipkin" "http://h/").2 = some err ∧
      err = GoError.errorf ("unsupported exporter: " ++ "zipkin") ∧
      err.Error = "unsupported exporter: " ++ "zipkin" :=
  initTracerExporter_unsupported Sdk.ok envEmpty "zipkin" "http://h/" (by decide)

/-- C2, as the claim states it, fails: `"cloud"` and `"discard"` have no case
in the switch and are rejected as unsupported, while `"gcp"` and `"none"`,
which are other strings, are not rejected. -/
theorem cloud_discard_not_recognised :
    initTracerExporter Sdk.ok envEmpty "cloud" "" =
      (SpanExporter.nil, some (GoError.errorf "unsupported exporter: cloud")) ∧
    initTracerExporter Sdk.ok envEmpty "discard" "" =
      (SpanExporter.nil, some (GoError.errorf "unsupported exporter: discard")) ∧
    initTracerExporter Sdk.ok envEmpty "gcp" "" =
      (SpanExporter.gcp "" (Sdk.ok.gcpReads envEmpty), none) ∧
    initTracerExporter Sdk.ok envEmpty "none" "" =
      (SpanExporter.stdouttrace true Writer.Discard, none) := by
  decide

/-- C2, amended. The identifiers with a case of their own are exactly
`"jaeger"`, `"gcp"`, `"stdout"` and `"none"`: for each of them and every
endpoint the result is what the library constructor returns for the
corresponding exporter (jaeger: collector exporter for the endpoint; gcp:
exporter for the project id of the environment; stdout: pretty-printing
exporter writing to `os.Stderr`; none: pretty-printing exporter writing to
`io.Discard`), and the unsupported-exporter error is returned exactly for the
other strings. -/
theorem initTracerExporter_cases (lib : Sdk) (env : Environ) (s e : String) :
    initTracerExporter lib env "jaeger" e = jaeger.New lib env e ∧
    initTracerExporter lib env "gcp" e =
      gcpexporter.New lib env (Getenv env "GOOGLE_CLOUD_PROJECT") ∧
    initTracerExporter lib env "stdout" e = stdouttrace.New lib true Writer.Stderr ∧
    initTracerExporter lib env "none" e = stdouttrace.New lib true Writer.Discard ∧
    (jaeger.New lib env e).1 ∈
      [SpanExporter.jaeger e (lib.jaegerReads env),
       SpanExporter.typedNil ExporterKind.jaeger] ∧
    (gcpexporter.New lib env (Getenv env "GOOGLE_CLOUD_PROJECT")).1 ∈
      [SpanExporter.gcp (Getenv env "GOOGLE_CLOUD_PROJECT") (lib.gcpReads env),
       SpanExporter.typedNil ExporterKind.gcp] ∧
    (stdouttrace.New lib true Writer.Stderr).1 ∈
      [SpanExporter.stdouttrace true Writer.Stderr,
       SpanExporter.typedNil ExporterKind.stdouttrace] ∧
    (stdouttrace.New lib true Writer.Discard).1 ∈
      [SpanExporter.stdouttrace true Writer.Discard,
       SpanExporter.typedNil ExporterKind.stdouttrace] ∧
    ((initTracerExporter lib env s e).2 = some (GoError.errorf ("unsupported exporter: " ++ s))
      ↔ s ∉ recognised) := by
  have hmem : ∀ (k : ExporterKind) (x : SpanExporter) (f : Option String),
      (constructed k x f).1 ∈ [x, SpanExporter.typedNil k] := by
    intro k x f
    cases f <;> simp [constructed]
  refine ⟨rfl, rfl, rfl, rfl, hmem _ _ _, hmem _ _ _, hmem _ _ _, hmem _ _ _, ?_,
    fun h => by rw [initTracerExporter_default lib env s e h]⟩
  intro h hs
  simp only [recognised, List.mem_cons, List.mem_singleton, List.not_mem_nil, or_false] at hs
  rcases hs with rfl | rfl | rfl | rfl
  · exact constructed_error_ne _ _ _ _ h
  · exact constructed_error_ne _ _ _ _ h
  · exact constructed_error_ne _ _ _ _ h
  · exact constructed_error_ne _ _ _ _ h

/-- C10, as the claim states it, fails: for `"jaeger"`, which is not the
cloud kind, the result is not the same under any two environments, because
the jaeger library takes the username of the collector from
`OTEL_EXPORTER_JAEGER_USER`. -/
theorem jaeger_reads_environ :
    "jaeger" ≠ "gcp" ∧
    initTracerExporter Sdk.ok envEmpty "jaeger" "http://h/" =
      (SpanExporter.jaeger "http://h/"
        [⟨"OTEL_EXPORTER_JAEGER_USER", ""⟩, ⟨"OTEL_EXPORTER_JAEGER_PASSWORD", ""⟩], none) ∧
    initTracerExporter Sdk.ok (envOf "OTEL_EXPORTER_JAEGER_USER" "u") "jaeger" "http://h/" =
      (SpanExporter.jaeger "http://h/"
        [⟨"OTEL_EXPORTER_JAEGER_USER", "u"⟩, ⟨"OTEL_EXPORTER_JAEGER_PASSWORD", ""⟩], none) ∧
    initTracerExporter Sdk.ok envEmpty "jaeger" "http://h/" ≠
      initTracerExporter Sdk.ok (envOf "OTEL_EXPORTER_JAEGER_USER" "u") "jaeger" "http://h/" := by
  decide

/-- C10, amended. The code of `initTracerExporter` reads the environment in
the case of the cloud exporter (`"gcp"`) only, and there the one variable
`GOOGLE_CLOUD_PROJECT`. For an identifier `s` that is neither `"gcp"` nor
`"jaeger"` the result is the same under any two environments; for `"jaeger"`
it is the same under any two environments from which the jaeger library
reads the same settings; for `"gcp"` the exporter is built by the library
from the value of `GOOGLE_CLOUD_PROJECT` as project id. -/
theorem initTracerExporter_environ (lib : Sdk) (env1 env2 : Environ) (s e : String)
    (h : s ≠ "gcp") (hj : s ≠ "jaeger") :
    initTracerExporter lib env1 s e = initTracerExporter lib env2 s e ∧
    (lib.jaegerReads env1 = lib.jaegerReads env2 →
      initTracerExporter lib env1 "jaeger" e = initTracerExporter lib env2 "jaeger" e) ∧
    initTracerExporter lib env1 "gcp" e =
      gcpexporter.New lib env1 (Getenv env1 "GOOGLE_CLOUD_PROJECT") ∧
    ((initTracerExporter lib env1 "gcp" e).2 = none →
      (initTracerExporter lib env1 "gcp" e).1 =
        SpanExporter.gcp (Getenv env1 "GOOGLE_CLOUD_PROJECT") (lib.gcpReads env1)) := by
  refine ⟨?_, ?_, rfl, ?_⟩
  · unfold initTracerExporter
    split <;> first | rfl | exact absurd rfl h | exact absurd rfl hj
  · intro hr
    show jaeger.New lib env1 e = jaeger.New lib env2 e
    unfold jaeger.New
    rw [hr]
  · intro hok
    have hc := constructed_ok ExporterKind.gcp
      (SpanExporter.gcp (Getenv env1 "GOOGLE_CLOUD_PROJECT") (lib.gcpReads env1))
      (lib.gcpFailure (Getenv env1 "GOOGLE_CLOUD_PROJECT") (lib.gcpReads env1)) hok
    show (constructed ExporterKind.gcp
      (SpanExporter.gcp (Getenv env1 "GOOGLE_CLOUD_PROJECT") (lib.gcpReads env1))
      (lib.gcpFailure (Getenv env1 "GOOGLE_CLOUD_PROJECT") (lib.gcpReads env1))).1 = _
    rw [hc]

theorem initTracerExporter_environ_witness :
    initTracerExporter Sdk.ok (envOf "GOOGLE_CLOUD_PROJECT" "p1") "stdout" "http://h/" =
      initTracerExporter Sdk.ok (envOf "GOOGLE_CLOUD_PROJECT" "p2") "stdout" "http://h/" ∧
    (Sdk.ok.jaegerReads (envOf "GOOGLE_CLOUD_PROJECT" "p1") =
        Sdk.ok.jaegerReads (envOf "GOOGLE_CLOUD_PROJECT" "p2") →
      initTracerExporter Sdk.ok (envOf "GOOGLE_CLOUD_PROJECT" "p1") "jaeger" "http://h/" =
        initTracerExporter Sdk.ok (envOf "GOOGLE_CLOUD_PROJECT" "p2") "jaeger" "http://h/") ∧
    initTracerExporter Sdk.ok (envOf "GOOGLE_CLOUD_PROJECT" "p1") "gcp" "http://h/" =
      gcpexporter.New Sdk.ok (envOf "GOOGLE_CLOUD_PROJECT" "p1")
        (Getenv (envOf "GOOGLE_CLOUD_PROJECT" "p1") "GOOGLE_CLOUD_PROJECT") ∧
    ((initTracerExporter Sdk.ok (envOf "GOOGLE_CLOUD_PROJECT" "p1") "gcp" "http://h/").2 = none →
      (initTracerExporter Sdk.ok (envOf "GOOGLE_CLOUD_PROJECT" "p1") "gcp" "http://h/").1 =
        SpanExporter.gcp (Getenv (envOf "GOOGLE_CLOUD_PROJECT" "p1") "GOOGLE_CLOUD_PROJECT")
          (Sdk.ok.gcpReads (envOf "GOOGLE_CLOUD_PROJECT" "p1"))) :=
  initTracerExporter_environ Sdk.ok (envOf "GOOGLE_CLOUD_PROJECT" "p1")
    (envOf "GOOGLE_CLOUD_PROJECT" "p2") "stdout" "http://h/" (by decide) (by decide)

/-! ## Provider assembly -/

/-- C3. `initTracerProvider` never fails: for every exporter and every
service name, the empty one included, the error it returns is nil. -/
theorem initTracerProvider_no_error (lib : Sdk) (env : Environ) (x : SpanExporter)
    (n : String) :
    (initTracerProvider lib env x n).2 = none :=
  rfl

/-- C4, as the claim states it, fails: with `OTEL_RESOURCE_ATTRIBUTES=team=x`
in the environment the resource of the provider has two attributes,
`service.name` and `team`: `WithResource` stores the given resource merged
with the one detected in the environment. -/
theorem resource_has_environ_attributes :
    (initTracerProvider Sdk.ok (envOf "OTEL_RESOURCE_ATTRIBUTES" "team=x")
        SpanExporter.nil "go-otel").1.resource.attributes =
      [⟨"service.name", "go-otel"⟩, ⟨"team", "x"⟩] ∧
    (initTracerProvider Sdk.ok (envOf "OTEL_RESOURCE_ATTRIBUTES" "team=x")
        SpanExporter.nil "go-otel").1.resource.attributes ≠
      [⟨"service.name", "go-otel"⟩] := by
  have hd : Sdk.ok.detect (envOf "OTEL_RESOURCE_ATTRIBUTES" "team=x") = [⟨"team", "x"⟩] := by
    decide
  have hlt : "service.name" < "team" := String.lt_iff_toList_lt.mpr (by decide)
  have hne : ¬ "service.name" = "team" := by decide
  have ha : (initTracerProvider Sdk.ok (envOf "OTEL_RESOURCE_ATTRIBUTES" "team=x")
      SpanExporter.nil "go-otel").1.resource.attributes =
      [⟨"service.name", "go-otel"⟩, ⟨"team", "x"⟩] := by
    rw [initTracerProvider_resource, hd]
    simp [attribute.NewSet, insertAttr, hlt, hne]
  rw [ha]
  exact ⟨rfl, by decide⟩

/-- C4, amended. The provider `initTracerProvider x n` returns has exactly
one span processor, a batching one wrapping `x` (so no simple processor),
the always-sample sampler, and as resource the merge of the resource detected
in the environment with the given one: its schema URL is the
semantic-convention schema URL, `service.name = n` is an attribute of it and
the only one of that key, and every other attribute of it is one detected in
the environment; when nothing is detected there, `service.name = n` is its
only attribute. -/
theorem initTracerProvider_config (lib : Sdk) (env : Environ) (x : SpanExporter)
    (n : String) :
    (initTracerProvider lib env x n).1.spanProcessors = [SpanProcessor.batch x] ∧
    (∀ y, SpanProcessor.simple y ∉ (initTracerProvider lib env x n).1.spanProcessors) ∧
    (initTracerProvider lib env x n).1.sampler = Sampler.AlwaysSample ∧
    (initTracerProvider lib env x n).1.resource =
      resource.Merge (resource.Environment lib env)
        (resource.NewWithAttributes semconv.SchemaURL [⟨"service.name", n⟩]) ∧
    (initTracerProvider lib env x n).1.resource.schemaURL = semconv.SchemaURL ∧
    (⟨"service.name", n⟩ : KeyValue) ∈ (initTracerProvider lib env x n).1.resource.attributes ∧
    (∀ kv ∈ (initTracerProvider lib env x n).1.resource.attributes,
      kv.key = "service.name" → kv.value = n) ∧
    (∀ kv ∈ (initTracerProvider lib env x n).1.resource.attributes,
      kv = ⟨"service.name", n⟩ ∨ kv ∈ lib.detect env) ∧
    (lib.detect env = [] →
      (initTracerProvider lib env x n).1.resource.attributes = [⟨"service.name", n⟩]) := by
  refine ⟨rfl, ?_, rfl, rfl, ?_, ?_, ?_, ?_, ?_⟩
  · intro y hy
    have : (initTracerProvider lib env x n).1.spanProcessors = [SpanProcessor.batch x] := rfl
    rw [this] at hy
    simp at hy
  · rw [initTracerProvider_resource]
  · rw [initTracerProvider_resource]
    exact mem_insertAttr_self _ _
  · rw [initTracerProvider_resource]
    intro kv hkv hk
    rw [insertAttr_key (NewSet_sorted _) hkv hk]
  · rw [initTracerProvider_resource]
    intro kv hkv
    rcases mem_of_mem_insertAttr hkv with h1 | h1
    · exact Or.inl h1
    · exact Or.inr (mem_NewSet (mem_NewSet h1))
  · intro hd
    rw [initTracerProvider_resource, hd]
    rfl

/-! ## The demo chain -/

/-- The spans `a` produces, with their times spelled out: `st.sched.latency`
at the eight steps of the run is what the world adds to the three pauses. -/
theorem a_ended (ctx : Context) (st : State) :
    (a ctx st).ended = st.ended ++
      [{ name := "c", traceID := traceOf ctx st, spanID := st.nextSpanID + 1 + 1,
         parentSpanID := some (st.nextSpanID + 1),
         startTime := st.clock + st.sched.latency st.step + 100 * Millisecond +
           st.sched.latency (st.step + 1) + st.sched.latency (st.step + 1 + 1) +
           200 * Millisecond + st.sched.latency (st.step + 1 + 1 + 1),
         endTime := st.clock + st.sched.latency st.step + 100 * Millisecond +
           st.sched.latency (st.step + 1) + st.sched.latency (st.step + 1 + 1) +
           200 * Millisecond + st.sched.latency (st.step + 1 + 1 + 1) +
           st.sched.latency (st.step + 1 + 1 + 1 + 1) + 300 * Millisecond +
           st.sched.latency (st.step + 1 + 1 + 1 + 1 + 1) },
       { name := "b", traceID := traceOf ctx st, spanID := st.nextSpanID + 1,
         parentSpanID := some st.nextSpanID,
         startTime := st.clock + st.sched.latency st.step + 100 * Millisecond +
           st.sched.latency (st.step + 1),
         endTime := st.clock + st.sched.latency st.step + 100 * Millisecond +
           st.sched.latency (st.step + 1) + st.sched.latency (st.step + 1 + 1) +
           200 * Millisecond + st.sched.latency (st.step + 1 + 1 + 1) +
           st.sched.latency (st.step + 1 + 1 + 1 + 1) + 300 * Millisecond +
           st.sched.latency (st.step + 1 + 1 + 1 + 1 + 1) +
           st.sched.latency (st.step + 1 + 1 + 1 + 1 + 1 + 1) },
       { name := "a", traceID := traceOf ctx st, spanID := st.nextSpanID,
         parentSpanID := ctx.span.map (fun p => p.spanID),
         startTime := st.clock,
         endTime := st.clock + st.sched.latency st.step + 100 * Millisecond +
           st.sched.latency (st.step + 1) + st.sched.latency (st.step + 1 + 1) +
           200 * Millisecond + st.sched.latency (st.step + 1 + 1 + 1) +
           st.sched.latency (st.step + 1 + 1 + 1 + 1) + 300 * Millisecond +
           st.sched.latency (st.step + 1 + 1 + 1 + 1 + 1) +
           st.sched.latency (st.step + 1 + 1 + 1 + 1 + 1 + 1) +
           st.sched.latency (st.step + 1 + 1 + 1 + 1 + 1 + 1 + 1) }] := by
  simp [a, b, c, tracer.Start, time.Sleep, LiveSpan.End, LiveSpan.finish, traceOf]

/-- C5. Run from a context that carries no span, `a` produces exactly three
spans, named a, b and c, in one trace, the fresh one: a has no parent, the
parent of b is a and the parent of c is b, and the three span ids differ. -/
theorem a_span_chain (ctx : Context) (st : State) (h : ctx.span = none) :
    ∃ sa sb sc : Span, (a ctx st).ended = st.ended ++ [sc, sb, sa] ∧
      sa.name = "a" ∧ sb.name = "b" ∧ sc.name = "c" ∧
      sa.traceID = st.nextTraceID ∧ sb.traceID = sa.traceID ∧ sc.traceID = sa.traceID ∧
      sa.parentSpanID = none ∧ sb.parentSpanID = some sa.spanID ∧
      sc.parentSpanID = some sb.spanID ∧
      sa.spanID ≠ sb.spanID ∧ sb.spanID ≠ sc.spanID ∧ sa.spanID ≠ sc.spanID := by
  refine ⟨_, _, _, a_ended ctx st, rfl, rfl, rfl, ?_, rfl, rfl, ?_, rfl, rfl, ?_, ?_, ?_⟩
  · simp [traceOf, h]
  · simp [h]
  · simp
  · simp
  · show st.nextSpanID ≠ st.nextSpanID + 1 + 1
    omega

theorem a_span_chain_witness :
    ∃ sa sb sc : Span, (a Background (State.init sched0 0)).ended =
        (State.init sched0 0).ended ++ [sc, sb, sa] ∧
      sa.name = "a" ∧ sb.name = "b" ∧ sc.name = "c" ∧
      sa.traceID = (State.init sched0 0).nextTraceID ∧ sb.traceID = sa.traceID ∧
      sc.traceID = sa.traceID ∧
      sa.parentSpanID = none ∧ sb.parentSpanID = some sa.spanID ∧
      sc.parentSpanID = some sb.spanID ∧
      sa.spanID ≠ sb.spanID ∧ sb.spanID ≠ sc.spanID ∧ sa.spanID ≠ sc.spanID :=
  a_span_chain Background (State.init sched0 0) rfl

/-- C6. Whatever time the world adds to the pauses, the spans `a` produces
satisfy: a lasts at least 600 ms, b at least 500 ms and c at least 300 ms;
no span ends before it starts; and the interval of b lies inside that of a,
the interval of c inside that of b. -/
theorem a_durations (ctx : Context) (st : State) :
    ∃ sa sb sc : Span, (a ctx st).ended = st.ended ++ [sc, sb, sa] ∧
      sa.name = "a" ∧ sb.name = "b" ∧ sc.name = "c" ∧
      600 * Millisecond ≤ sa.duration ∧ 500 * Millisecond ≤ sb.duration ∧
      300 * Millisecond ≤ sc.duration ∧
      sa.startTime ≤ sa.endTime ∧ sb.startTime ≤ sb.endTime ∧ sc.startTime ≤ sc.endTime ∧
      sa.startTime ≤ sb.startTime ∧ sb.endTime ≤ sa.endTime ∧
      sb.startTime ≤ sc.startTime ∧ sc.endTime ≤ sb.endTime := by
  refine ⟨_, _, _, a_ended ctx st, rfl, rfl, rfl, ?_⟩
  simp only [Span.duration, Millisecond]
  omega

/-- C9. The start and end events of `a` are exactly: start a, start b,
start c, end c, end b, end a. Each span is ended once, and a caller's span
ends after its callee's. -/
theorem a_events (ctx : Context) (st : State) :
    (a ctx st).events = st.events ++
      [Event.Start "a" st.nextSpanID, Event.Start "b" (st.nextSpanID + 1),
       Event.Start "c" (st.nextSpanID + 2),
       Event.End "c" (st.nextSpanID + 2), Event.End "b" (st.nextSpanID + 1),
       Event.End "a" st.nextSpanID] := by
  simp [a, b, c, tracer.Start, time.Sleep, LiveSpan.End]

/-! ## The process: flushing -/

theorem tracked_of_eq {x : SpanExporter} {s : Span} {st st1 : State}
    (hq : st1.queue = st.queue) (hx : st1.exported = st.exported) (h : tracked x s st) :
    tracked x s st1 := by
  unfold tracked handed at *
  rw [hq, hx]
  exact h

theorem exportBatch_handed {x : SpanExporter} {s : Span} (e : SpanExporter) {st : State}
    (h : handed x s st) : handed x s (exportBatch e st) := by
  unfold exportBatch
  dsimp only
  split
  · exact h
  · obtain ⟨batch, hb, hs⟩ := h
    exact ⟨batch, List.mem_append_left _ hb, hs⟩

theorem exportBatch_self {x : SpanExporter} {s : Span} {st : State}
    (h : (x, s) ∈ st.queue) : handed x s (exportBatch x st) := by
  have hs : s ∈ (st.queue.filter (fun q => q.1 = x)).map (fun q => q.2) :=
    List.mem_map.mpr ⟨(x, s), List.mem_filter.mpr ⟨h, by simp⟩, rfl⟩
  unfold exportBatch
  dsimp only
  split
  · rename_i hempty
    rw [List.isEmpty_iff] at hempty
    rw [hempty] at hs
    exact absurd hs (List.not_mem_nil _)
  · exact ⟨_, List.mem_append_right _ (List.mem_singleton.mpr rfl), hs⟩

theorem exportBatch_tracked {x : SpanExporter} {s : Span} (e : SpanExporter) {st : State}
    (h : tracked x s st) : tracked x s (exportBatch e st) := by
  rcases h with h | h
  · exact Or.inl (exportBatch_handed e h)
  · by_cases hxe : x = e
    · subst hxe
      exact Or.inl (exportBatch_self h)
    · right
      unfold exportBatch
      dsimp only
      split
      · exact h
      · exact List.mem_filter.mpr ⟨h, by simpa using hxe⟩

theorem exportQueued_handed {x : SpanExporter} {s : Span} (ps : List SpanProcessor)
    {st : State} (h : handed x s st) : handed x s (exportQueued ps st) := by
  induction ps generalizing st with
  | nil => exact h
  | cons p ps ih =>
    cases p with
    | batch e => exact ih (exportBatch_handed e h)
    | simple e => exact ih h

theorem exportQueued_tracked {x : SpanExporter} {s : Span} (ps : List SpanProcessor)
    {st : State} (h : tracked x s st) : tracked x s (exportQueued ps st) := by
  induction ps generalizing st with
  | nil => exact h
  | cons p ps ih =>
    cases p with
    | batch e => exact ih (exportBatch_tracked e h)
    | simple e => exact ih h

theorem exportQueued_flush {x : SpanExporter} {s : Span} {st : State}
    (h : tracked x s st) : handed x s (exportQueued [SpanProcessor.batch x] st) := by
  show handed x s (exportBatch x st)
  rcases h with h | h
  · exact exportBatch_handed x h
  · exact exportBatch_self h

theorem tick_tracked {x : SpanExporter} {s : Span} {st : State}
    (h : tracked x s st) : tracked x s (tick st) := by
  unfold tick
  dsimp only
  split
  · exact exportQueued_tracked _ (tracked_of_eq rfl rfl h)
  · exact tracked_of_eq rfl rfl h

theorem onEnd_tracked {x : SpanExporter} {s : Span} (s1 : Span) (ps : List SpanProcessor)
    {st : State} (h : tracked x s st) : tracked x s (onEnd s1 ps st) := by
  induction ps generalizing st with
  | nil => exact h
  | cons p ps ih =>
    cases p with
    | batch e =>
      refine ih ?_
      rcases h with h | h
      · exact Or.inl h
      · exact Or.inr (List.mem_append_left _ h)
    | simple e =>
      refine ih ?_
      rcases h with ⟨batch, hb, hs⟩ | h
      · exact Or.inl ⟨batch, List.mem_append_left _ hb, hs⟩
      · exact Or.inr h

theorem onEnd_batch_tracked (x : SpanExporter) (s : Span) (st : State) :
    tracked x s (onEnd s [SpanProcessor.batch x] st) :=
  Or.inr (List.mem_append_right _ (List.mem_singleton.mpr rfl))

theorem Start_provider (ctx : Context) (n : String) (st : State) :
    (tracer.Start ctx n st).2.provider = st.provider := by
  simp [tracer.Start]

theorem Start_processors {x : SpanExporter} (ctx : Context) (n : String) {st : State}
    (h : Installed x st) :
    (tracer.Start ctx n st).1.2.processors = [SpanProcessor.batch x] := by
  obtain ⟨tp, hp, hs, hb⟩ := h
  simp [tracer.Start, LiveSpan.processors, hp, hs, hb, shouldSample]

theorem Start_installed {x : SpanExporter} (ctx : Context) (n : String) {st : State}
    (h : Installed x st) : Installed x (tracer.Start ctx n st).2 := by
  unfold Installed
  rw [Start_provider]
  exact h

theorem Start_allTracked {x : SpanExporter} (ctx : Context) (n : String) {st : State}
    (h : AllTracked x st) : AllTracked x (tracer.Start ctx n st).2 := by
  intro s hs
  have hs1 : s ∈ st.ended := by simpa [tracer.Start] using hs
  exact tick_tracked (tracked_of_eq rfl rfl (h s hs1))

theorem Sleep_installed {x : SpanExporter} (d : Nat) {st : State}
    (h : Installed x st) : Installed x (time.Sleep d st) := by
  unfold Installed
  simpa [time.Sleep] using h

theorem Sleep_allTracked {x : SpanExporter} (d : Nat) {st : State}
    (h : AllTracked x st) : AllTracked x (time.Sleep d st) := by
  intro s hs
  have hs1 : s ∈ st.ended := by simpa [time.Sleep] using hs
  exact tick_tracked (tracked_of_eq rfl rfl (h s hs1))

theorem End_installed {x : SpanExporter} (span : LiveSpan) {st : State}
    (h : Installed x st) : Installed x (span.End st) := by
  unfold Installed
  simpa [LiveSpan.End] using h

theorem End_allTracked {x : SpanExporter} (span : LiveSpan) {st : State}
    (hp : span.processors = [SpanProcessor.batch x]) (h : AllTracked x st) :
    AllTracked x (span.End st) := by
  intro s hs
  have hs1 : s ∈ st.ended ∨ s = span.finish st.clock := by
    simpa [LiveSpan.End] using hs
  unfold LiveSpan.End
  dsimp only
  rw [hp]
  refine tick_tracked ?_
  rcases hs1 with hs1 | rfl
  · exact onEnd_tracked _ _ (tracked_of_eq rfl rfl (h s hs1))
  · exact onEnd_batch_tracked x _ _

theorem c_tracked {x : SpanExporter} (ctx : Context) {st : State}
    (hi : Installed x st) (h : AllTracked x st) :
    Installed x (c ctx st) ∧ AllTracked x (c ctx st) := by
  unfold c
  exact ⟨End_installed _ (Sleep_installed _ (Start_installed ctx "c" hi)),
    End_allTracked _ (Start_processors ctx "c" hi)
      (Sleep_allTracked _ (Start_allTracked ctx "c" h))⟩

theorem b_tracked {x : SpanExporter} (ctx : Context) {st : State}
    (hi : Installed x st) (h : AllTracked x st) :
    Installed x (b ctx st) ∧ AllTracked x (b ctx st) := by
  unfold b
  have hc := c_tracked (tracer.Start ctx "b" st).1.1
    (Sleep_installed (200 * Millisecond) (Start_installed ctx "b" hi))
    (Sleep_allTracked (200 * Millisecond) (Start_allTracked ctx "b" h))
  exact ⟨End_installed _ hc.1, End_allTracked _ (Start_processors ctx "b" hi) hc.2⟩

theorem a_tracked {x : SpanExporter} (ctx : Context) {st : State}
    (hi : Installed x st) (h : AllTracked x st) :
    Installed x (a ctx st) ∧ AllTracked x (a ctx st) := by
  unfold a
  have hb := b_tracked (tracer.Start ctx "a" st).1.1
    (Sleep_installed (100 * Millisecond) (Start_installed ctx "a" hi))
    (Sleep_allTracked (100 * Millisecond) (Start_allTracked ctx "a" h))
  exact ⟨End_installed _ hb.1, End_allTracked _ (Start_processors ctx "a" hi) hb.2⟩

theorem exportQueued_ended (ps : List SpanProcessor) (st : State) :
    (exportQueued ps st).ended = st.ended := by
  obtain ⟨q, x, h⟩ := exportQueued_frame ps st; rw [h]

theorem exportQueued_events (ps : List SpanProcessor) (st : State) :
    (exportQueued ps st).events = st.events := by
  obtain ⟨q, x, h⟩ := exportQueued_frame ps st; rw [h]

theorem ForceFlush_handed {x : SpanExporter} (tp : TracerProvider) (ctx : Context)
    {st : State} (hp : tp.spanProcessors = [SpanProcessor.batch x]) (h : AllTracked x st) :
    ∀ s ∈ (tp.ForceFlush ctx st).ended, handed x s (tp.ForceFlush ctx st) := by
  intro s hs
  unfold TracerProvider.ForceFlush at hs ⊢
  rw [exportQueued_ended] at hs
  rw [hp]
  exact exportQueued_flush (tracked_of_eq rfl rfl (h s hs))

theorem exitCode_handed {x : SpanExporter} {s : Span} {st : State} (n : Option Nat)
    (h : handed x s st) : handed x s { st with exitCode := n } :=
  h

/-- The body of `main` when the exporter is built: provider and propagator
are installed, `a` runs, the deferred flush runs, the process exits. -/
theorem mainBody_ok (lib : Sdk) (env : Environ) (s e : String) (st : State)
    (x : SpanExporter) (h : initTracerExporter lib env s e = (x, none)) :
    mainBody lib env s e st =
      { (initTracerProvider lib env x "go-otel").1.ForceFlush Background
          (a Background
            (otel.SetTextMapPropagator (.Composite [.TraceContext, .Baggage])
              (otel.SetTracerProvider (initTracerProvider lib env x "go-otel").1 st))) with
        exitCode := some 0 } := by
  unfold mainBody
  rw [h]
  rfl

/-- C7. In every run of `main` in which the exporter is built, the events
are: the provider and the propagator are installed, the three spans start
and end, and then `ForceFlush` is called, once, last; the process then exits
with status 0, and by then every one of the three spans that ended has been
handed to the exporter in some batch, whatever the background worker did. -/
theorem main_force_flush (lib : Sdk) (env : Environ) (sched : Sched) (now : Nat)
    (h : (initTracerExporter lib env "jaeger" "http://localhost:14268/api/traces").2 = none) :
    (initTracerExporter lib env "jaeger" "http://localhost:14268/api/traces").1 =
      SpanExporter.jaeger "http://localhost:14268/api/traces" (lib.jaegerReads env) ∧
    (main lib env sched now).events =
      [Event.SetTracerProvider
         (initTracerProvider lib env
           (initTracerExporter lib env "jaeger" "http://localhost:14268/api/traces").1
           "go-otel").1,
       Event.SetTextMapPropagator,
       Event.Start "a" 1, Event.Start "b" 2, Event.Start "c" 3,
       Event.End "c" 3, Event.End "b" 2, Event.End "a" 1,
       Event.ForceFlush] ∧
    (main lib env sched now).events.count Event.ForceFlush = 1 ∧
    (main lib env sched now).ended.map Span.name = ["c", "b", "a"] ∧
    (∀ s ∈ (main lib env sched now).ended,
      handed (initTracerExporter lib env "jaeger" "http://localhost:14268/api/traces").1 s
        (main lib env sched now)) ∧
    (main lib env sched now).exitCode = some 0 := by
  have hx : initTracerExporter lib env "jaeger" "http://localhost:14268/api/traces" =
      (SpanExporter.jaeger "http://localhost:14268/api/traces" (lib.jaegerReads env),
       none) :=
    constructed_ok _ _ _ h
  have hm := mainBody_ok lib env "jaeger" "http://localhost:14268/api/traces"
    (State.init sched now) _ hx
  rw [hx]
  have hev : (main lib env sched now).events =
      [Event.SetTracerProvider
         (initTracerProvider lib env
           (SpanExporter.jaeger "http://localhost:14268/api/traces" (lib.jaegerReads env))
           "go-otel").1,
       Event.SetTextMapPropagator,
       Event.Start "a" 1, Event.Start "b" 2, Event.Start "c" 3,
       Event.End "c" 3, Event.End "b" 2, Event.End "a" 1,
       Event.ForceFlush] := by
    unfold main
    rw [hm]
    simp [TracerProvider.ForceFlush, exportQueued_events, a, b, c, tracer.Start, time.Sleep,
      LiveSpan.End, otel.SetTextMapPropagator, otel.SetTracerProvider, State.init]
  have hen : (main lib env sched now).ended.map Span.name = ["c", "b", "a"] := by
    unfold main
    rw [hm]
    simp [TracerProvider.ForceFlush, exportQueued_ended, a_ended,
      otel.SetTextMapPropagator, otel.SetTracerProvider, State.init]
  refine ⟨rfl, hev, ?_, hen, ?_, ?_⟩
  · rw [hev]
    simp [List.count_cons]
  · intro s hs
    unfold main at hs ⊢
    rw [hm] at hs ⊢
    refine exitCode_handed _ (ForceFlush_handed _ Background rfl
      (a_tracked Background ⟨_, rfl, rfl, rfl⟩ ?_).2 s hs)
    intro s1 hs1
    exact absurd hs1 (List.not_mem_nil _)
  · unfold main
    rw [hm]

theorem main_force_flush_witness :
    (initTracerExporter Sdk.ok envEmpty "jaeger" "http://localhost:14268/api/traces").1 =
      SpanExporter.jaeger "http://localhost:14268/api/traces" (Sdk.ok.jaegerReads envEmpty) ∧
    (main Sdk.ok envEmpty sched0 0).events =
      [Event.SetTracerProvider
         (initTracerProvider Sdk.ok envEmpty
           (initTracerExporter Sdk.ok envEmpty "jaeger" "http://localhost:14268/api/traces").1
           "go-otel").1,
       Event.SetTextMapPropagator,
       Event.Start "a" 1, Event.Start "b" 2, Event.Start "c" 3,
       Event.End "c" 3, Event.End "b" 2, Event.End "a" 1,
       Event.ForceFlush] ∧
    (main Sdk.ok envEmpty sched0 0).events.count Event.ForceFlush = 1 ∧
    (main Sdk.ok envEmpty sched0 0).ended.map Span.name = ["c", "b", "a"] ∧
    (∀ s ∈ (main Sdk.ok envEmpty sched0 0).ended,
      handed (initTracerExporter Sdk.ok envEmpty "jaeger"
          "http://localhost:14268/api/traces").1 s
        (main Sdk.ok envEmpty sched0 0)) ∧
    (main Sdk.ok envEmpty sched0 0).exitCode = some 0 :=
  main_force_flush Sdk.ok envEmpty sched0 0 (by decide)

/-- C8. When the exporter type has no case in the switch, no exporter is
returned and the body of `main` does one thing: it logs the
unsupported-exporter error and exits with status 1. The state is otherwise
the one it started from: no provider and no propagator is installed, no span
is started or ended, nothing is buffered or exported and no flush is called. -/
theorem mainBody_unsupported (lib : Sdk) (env : Environ) (s e : String) (st : State)
    (h : s ∉ recognised) :
    (initTracerExporter lib env s e).1 = SpanExporter.nil ∧
    mainBody lib env s e st =
      { st with events := st.events ++ [Event.Fatal ("unsupported exporter: " ++ s)],
                exitCode := some 1 } ∧
    (mainBody lib env s e st).provider = st.provider ∧
    (mainBody lib env s e st).propagator = st.propagator ∧
    (mainBody lib env s e st).ended = st.ended ∧
    (mainBody lib env s e st).queue = st.queue ∧
    (mainBody lib env s e st).exported = st.exported ∧
    (∀ ev ∈ (mainBody lib env s e st).events, ev ∈ st.events ∨
      ev = Event.Fatal ("unsupported exporter: " ++ s)) := by
  have hm : mainBody lib env s e st =
      { st with events := st.events ++ [Event.Fatal ("unsupported exporter: " ++ s)],
                exitCode := some 1 } := by
    unfold mainBody
    rw [initTracerExporter_default lib env s e h]
    rfl
  rw [hm, initTracerExporter_default lib env s e h]
  refine ⟨rfl, rfl, rfl, rfl, rfl, rfl, rfl, ?_⟩
  intro ev hev
  simpa using hev

theorem mainBody_unsupported_witness :
    (initTracerExporter Sdk.ok envEmpty "cloud" "").1 = SpanExporter.nil ∧
    mainBody Sdk.ok envEmpty "cloud" "" (State.init sched0 0) =
      { State.init sched0 0 with
        events := (State.init sched0 0).events ++
          [Event.Fatal ("unsupported exporter: " ++ "cloud")],
        exitCode := some 1 } ∧
    (mainBody Sdk.ok envEmpty "cloud" "" (State.init sched0 0)).provider =
      (State.init sched0 0).provider ∧
    (mainBody Sdk.ok envEmpty "cloud" "" (State.init sched0 0)).propagator =
      (State.init sched0 0).propagator ∧
    (mainBody Sdk.ok envEmpty "cloud" "" (State.init sched0 0)).ended =
      (State.init sched0 0).ended ∧
    (mainBody Sdk.ok envEmpty "cloud" "" (State.init sched0 0)).queue =
      (State.init sched0 0).queue ∧
    (mainBody Sdk.ok envEmpty "cloud" "" (State.init sched0 0)).exported =
      (State.init sched0 0).exported ∧
    (∀ ev ∈ (mainBody Sdk.ok envEmpty "cloud" "" (State.init sched0 0)).events,
      ev ∈ (State.init sched0 0).events ∨
      ev = Event.Fatal ("unsupported exporter: " ++ "cloud")) :=
  mainBody_unsupported Sdk.ok envEmpty "cloud" "" (State.init sched0 0)
    (by decide)

end GoOtel
